import Mathlib

/-!
Verification of the flight-dynamics, input-fusion and simulation-loop
subsystem of the Project Manta anti-gravity flight simulator.

The TypeScript source is embedded shallowly: the three.js vector helpers
that the physics code calls are transcribed from the three.js sources
(Vector3.add, multiplyScalar, divideScalar, length, normalize,
applyEuler via quaternion, applyQuaternion), numbers become real numbers,
and each class method becomes a pure function on an explicit state record.
-/

noncomputable section

open Classical

/-- three.js Vector3: three real components. -/
@[ext]
structure Vec3 where
  x : ℝ
  y : ℝ
  z : ℝ

/-- three.js Euler: three rotation angles (default order XYZ). -/
@[ext]
structure Euler where
  x : ℝ
  y : ℝ
  z : ℝ

/-- three.js Quaternion: four components. -/
structure Quat where
  x : ℝ
  y : ℝ
  z : ℝ
  w : ℝ

namespace Vec3

/-- Vector3.add: componentwise sum. -/
def add (v w : Vec3) : Vec3 := ⟨v.x + w.x, v.y + w.y, v.z + w.z⟩

/-- Vector3.multiplyScalar. -/
def multiplyScalar (v : Vec3) (s : ℝ) : Vec3 := ⟨v.x * s, v.y * s, v.z * s⟩

/-- Vector3.divideScalar: defined in three.js as multiplyScalar by the inverse. -/
def divideScalar (v : Vec3) (s : ℝ) : Vec3 := v.multiplyScalar (1 / s)

/-- Vector3.length: Euclidean norm. -/
def length (v : Vec3) : ℝ := Real.sqrt (v.x * v.x + v.y * v.y + v.z * v.z)

/-- Vector3.normalize: three.js divides by the length, falling back to 1
when the length is zero (the JavaScript expression length or-else 1). -/
def normalize (v : Vec3) : Vec3 :=
  v.divideScalar (if v.length = 0 then 1 else v.length)

/-- Vector3.applyQuaternion, transcribed from three.js. -/
def applyQuaternion (v : Vec3) (q : Quat) : Vec3 :=
  let tx := 2 * (q.y * v.z - q.z * v.y)
  let ty := 2 * (q.z * v.x - q.x * v.z)
  let tz := 2 * (q.x * v.y - q.y * v.x)
  ⟨v.x + q.w * tx + q.y * tz - q.z * ty,
   v.y + q.w * ty + q.z * tx - q.x * tz,
   v.z + q.w * tz + q.x * ty - q.y * tx⟩

end Vec3

namespace Quat

/-- Quaternion.setFromEuler for rotation order XYZ, transcribed from three.js. -/
def setFromEulerXYZ (e : Euler) : Quat :=
  let c1 := Real.cos (e.x / 2)
  let c2 := Real.cos (e.y / 2)
  let c3 := Real.cos (e.z / 2)
  let s1 := Real.sin (e.x / 2)
  let s2 := Real.sin (e.y / 2)
  let s3 := Real.sin (e.z / 2)
  ⟨s1 * c2 * c3 + c1 * s2 * s3,
   c1 * s2 * c3 - s1 * c2 * s3,
   c1 * c2 * s3 + s1 * s2 * c3,
   c1 * c2 * c3 - s1 * s2 * s3⟩

end Quat

namespace Vec3

/-- Vector3.applyEuler: apply the quaternion built from the Euler angles. -/
def applyEuler (v : Vec3) (e : Euler) : Vec3 :=
  v.applyQuaternion (Quat.setFromEulerXYZ e)

theorem applyEuler_zero (v : Vec3) : v.applyEuler ⟨0, 0, 0⟩ = v := by
  simp [applyEuler, applyQuaternion, Quat.setFromEulerXYZ]

theorem length_nonneg (v : Vec3) : 0 ≤ v.length := Real.sqrt_nonneg _

theorem length_multiplyScalar (v : Vec3) (s : ℝ) :
    (v.multiplyScalar s).length = |s| * v.length := by
  unfold length multiplyScalar
  have h : v.x * s * (v.x * s) + v.y * s * (v.y * s) + v.z * s * (v.z * s) =
      s ^ 2 * (v.x * v.x + v.y * v.y + v.z * v.z) := by ring
  rw [h, Real.sqrt_mul (sq_nonneg s), Real.sqrt_sq_eq_abs]

theorem length_pos_of_length_gt {v : Vec3} {c : ℝ} (hc : 0 ≤ c)
    (h : c < v.length) : 0 < v.length := lt_of_le_of_lt hc h

end Vec3

/-- The touch record nested inside InputState (src InputManager.ts). -/
structure TouchState where
  active : Bool
  x : ℝ
  y : ℝ
  deltaX : ℝ
  deltaY : ℝ

/-- InputState interface from InputManager.ts: six digital thrust flags,
three continuous axes, and the nested touch record. -/
structure InputState where
  forward : Bool
  backward : Bool
  left : Bool
  right : Bool
  up : Bool
  down : Bool
  pitch : ℝ
  yaw : ℝ
  roll : ℝ
  touch : TouchState

namespace InputManager

/-- The private fields of the InputManager class: the held-key set, the
current input state, the last touch position, and the gyroscope data.
The key set is modelled as a duplicate-free list with membership lookup. -/
structure State where
  keys : List String
  inputState : InputState
  lastTouchX : ℝ
  lastTouchY : ℝ
  gyroscopeEnabled : Bool
  gyroAlpha : ℝ
  gyroBeta : ℝ
  gyroGamma : ℝ

/-- The constructor value of the inputState field. -/
def initialInputState : InputState :=
  { forward := false, backward := false, left := false, right := false
    up := false, down := false, pitch := 0, yaw := 0, roll := 0
    touch := { active := false, x := 0, y := 0, deltaX := 0, deltaY := 0 } }

/-- The InputManager constructor state.  Whether the gyroscope permission
request succeeds depends on the host platform, so it is a parameter. -/
def initial (gyro : Bool) : State :=
  { keys := [], inputState := initialInputState, lastTouchX := 0, lastTouchY := 0
    gyroscopeEnabled := gyro, gyroAlpha := 0, gyroBeta := 0, gyroGamma := 0 }

/-- handleKeyDown: add the key code to the held set. -/
def handleKeyDown (m : State) (code : String) : State :=
  { m with keys := m.keys.insert code }

/-- handleKeyUp: remove the key code from the held set. -/
def handleKeyUp (m : State) (code : String) : State :=
  { m with keys := m.keys.erase code }

/-- handleTouchStart: mark the contact active, record its position, and
remember it as the last touch position (the deltas are left unchanged). -/
def handleTouchStart (m : State) (cx cy : ℝ) : State :=
  { m with
    inputState := { m.inputState with
      touch := { m.inputState.touch with active := true, x := cx, y := cy } }
    lastTouchX := cx, lastTouchY := cy }

/-- handleTouchMove: when a contact is active, set the per-move deltas and
advance the last touch position; otherwise do nothing. -/
def handleTouchMove (m : State) (cx cy : ℝ) : State :=
  if m.inputState.touch.active = false then m
  else
    { m with
      inputState := { m.inputState with
        touch := { m.inputState.touch with
          deltaX := cx - m.lastTouchX, deltaY := cy - m.lastTouchY } }
      lastTouchX := cx, lastTouchY := cy }

/-- handleTouchEnd: deactivate the contact and zero the deltas. -/
def handleTouchEnd (m : State) : State :=
  { m with
    inputState := { m.inputState with
      touch := { m.inputState.touch with active := false, deltaX := 0, deltaY := 0 } } }

/-- handleMouseDown has the same effect on the model state as handleTouchStart. -/
def handleMouseDown (m : State) (cx cy : ℝ) : State := handleTouchStart m cx cy

/-- handleMouseMove has the same effect on the model state as handleTouchMove. -/
def handleMouseMove (m : State) (cx cy : ℝ) : State := handleTouchMove m cx cy

/-- handleMouseUp has the same effect on the model state as handleTouchEnd. -/
def handleMouseUp (m : State) : State := handleTouchEnd m

/-- handleDeviceOrientation: when the gyroscope is enabled, store the
orientation angles (a missing angle arrives as 0). -/
def handleOrientation (m : State) (a b g : ℝ) : State :=
  if m.gyroscopeEnabled = false then m
  else { m with gyroAlpha := a, gyroBeta := b, gyroGamma := g }

/-- InputManager.update: recompute the six digital flags from the held keys,
derive pitch and yaw from the touch deltas (or reset them), overlay the
gyroscope contribution beyond the five-degree deadband (or reset roll), and
clamp the three axes to the interval from -1 to 1. -/
def update (m : State) : State :=
  let st := m.inputState
  let st := { st with
    forward := m.keys.contains ("KeyW") || m.keys.contains ("ArrowUp")
    backward := m.keys.contains ("KeyS") || m.keys.contains ("ArrowDown")
    left := m.keys.contains ("KeyA") || m.keys.contains ("ArrowLeft")
    right := m.keys.contains ("KeyD") || m.keys.contains ("ArrowRight")
    up := m.keys.contains ("Space") || m.keys.contains ("KeyQ")
    down := m.keys.contains ("ShiftLeft") || m.keys.contains ("KeyE") }
  let sensitivity : ℝ := 0.002
  let st :=
    if st.touch.active then
      { st with yaw := -st.touch.deltaX * sensitivity
                pitch := -st.touch.deltaY * sensitivity }
    else
      { st with yaw := 0, pitch := 0 }
  let st :=
    if m.gyroscopeEnabled ∧ |m.gyroGamma| > 5 then
      { st with roll := m.gyroGamma * 0.01
                pitch := st.pitch + m.gyroBeta * 0.005
                yaw := st.yaw + m.gyroAlpha * 0.005 }
    else
      { st with roll := 0 }
  let st := { st with
    pitch := max (-1) (min 1 st.pitch)
    yaw := max (-1) (min 1 st.yaw)
    roll := max (-1) (min 1 st.roll) }
  { m with inputState := st }

/-- InputManager.getState returns a shallow copy of the input state; the
scalar axes read from it coincide with the internal ones. -/
def getState (m : State) : InputState := m.inputState

/-- A raw host event delivered to one of the registered handlers. -/
inductive RawEvent
  | keyDown (code : String)
  | keyUp (code : String)
  | touchStart (cx cy : ℝ)
  | touchMove (cx cy : ℝ)
  | touchEnd
  | mouseDown (cx cy : ℝ)
  | mouseMove (cx cy : ℝ)
  | mouseUp
  | orient (a b g : ℝ)

/-- One step of the InputManager: either a raw event or an update call. -/
inductive Op
  | raw (e : RawEvent)
  | update

/-- Dispatch one step to the matching handler. -/
def step : Op → State → State
  | .raw (.keyDown c), m => handleKeyDown m c
  | .raw (.keyUp c), m => handleKeyUp m c
  | .raw (.touchStart cx cy), m => handleTouchStart m cx cy
  | .raw (.touchMove cx cy), m => handleTouchMove m cx cy
  | .raw .touchEnd, m => handleTouchEnd m
  | .raw (.mouseDown cx cy), m => handleMouseDown m cx cy
  | .raw (.mouseMove cx cy), m => handleMouseMove m cx cy
  | .raw .mouseUp, m => handleMouseUp m
  | .raw (.orient a b g), m => handleOrientation m a b g
  | .update, m => update m

/-- Run a sequence of raw events interleaved with update calls from the
constructor state. -/
def run (gyro : Bool) (ops : List Op) : State :=
  ops.foldl (fun m op => step op m) (initial gyro)

end InputManager

/-- CraftState interface from CraftController.ts. -/
@[ext]
structure CraftState where
  position : Vec3
  velocity : Vec3
  acceleration : Vec3
  rotation : Euler
  angularVelocity : Vec3
  mass : ℝ
  gravityReduction : ℝ
  speed : ℝ
  altitude : ℝ
  gForce : ℝ

namespace CraftController

/-- private readonly baseThrust = 500. -/
def baseThrust : ℝ := 500

/-- private readonly maxSpeed = 2000. -/
def maxSpeed : ℝ := 2000

/-- private readonly gravityStrength = 9.81. -/
def gravityStrength : ℝ := 9.81

/-- The local drag constant inside updatePhysics. -/
def dragFactor : ℝ := 0.98

/-- The CraftState built by the CraftController constructor. -/
def initialState : CraftState :=
  { position := ⟨0, 1000, 0⟩
    velocity := ⟨0, 0, 0⟩
    acceleration := ⟨0, 0, 0⟩
    rotation := ⟨0, 0, 0⟩
    angularVelocity := ⟨0, 0, 0⟩
    mass := 1000
    gravityReduction := 0.892
    speed := 0
    altitude := 1000
    gForce := 1 }

/-- The speed-limiting block of updatePhysics: when the velocity length
exceeds maxSpeed, renormalize the velocity to that magnitude. -/
def limitSpeed (velocity : Vec3) : Vec3 :=
  if velocity.length > maxSpeed then velocity.normalize.multiplyScalar maxSpeed
  else velocity

/-- CraftController.updatePhysics(deltaTime, input), transcribed step by
step: zero the acceleration, apply reduced gravity, accumulate thrust from
the six digital flags, set angular velocity from the axes, rotate thrust to
the world frame by the current rotation, divide by mass and accumulate,
integrate velocity, apply drag, limit speed, integrate position and
rotation, and recompute the derived scalars. -/
def updatePhysics (deltaTime : ℝ) (inputState : InputState) (s : CraftState) : CraftState :=
  let acceleration : Vec3 := ⟨0, 0, 0⟩
  let gravity := gravityStrength * (1 - s.gravityReduction)
  let acceleration : Vec3 := ⟨acceleration.x, acceleration.y - gravity, acceleration.z⟩
  let thrustForce : Vec3 := ⟨0, 0, 0⟩
  let thrustForce : Vec3 :=
    if inputState.forward then ⟨thrustForce.x, thrustForce.y, thrustForce.z - baseThrust⟩
    else thrustForce
  let thrustForce : Vec3 :=
    if inputState.backward then ⟨thrustForce.x, thrustForce.y, thrustForce.z + baseThrust⟩
    else thrustForce
  let thrustForce : Vec3 :=
    if inputState.left then ⟨thrustForce.x - baseThrust, thrustForce.y, thrustForce.z⟩
    else thrustForce
  let thrustForce : Vec3 :=
    if inputState.right then ⟨thrustForce.x + baseThrust, thrustForce.y, thrustForce.z⟩
    else thrustForce
  let thrustForce : Vec3 :=
    if inputState.up then ⟨thrustForce.x, thrustForce.y + baseThrust, thrustForce.z⟩
    else thrustForce
  let thrustForce : Vec3 :=
    if inputState.down then ⟨thrustForce.x, thrustForce.y - baseThrust, thrustForce.z⟩
    else thrustForce
  let angularVelocity : Vec3 := ⟨inputState.pitch * 2, inputState.yaw * 2, inputState.roll * 2⟩
  let thrustForce := thrustForce.applyEuler s.rotation
  let acceleration := acceleration.add (thrustForce.divideScalar s.mass)
  let velocity := s.velocity.add (acceleration.multiplyScalar deltaTime)
  let velocity := velocity.multiplyScalar dragFactor
  let velocity := limitSpeed velocity
  let position := s.position.add (velocity.multiplyScalar deltaTime)
  let rotation : Euler :=
    ⟨s.rotation.x + angularVelocity.x * deltaTime,
     s.rotation.y + angularVelocity.y * deltaTime,
     s.rotation.z + angularVelocity.z * deltaTime⟩
  { s with
    position := position
    velocity := velocity
    acceleration := acceleration
    rotation := rotation
    angularVelocity := angularVelocity
    speed := velocity.length
    altitude := position.y
    gForce := max 1 (acceleration.length / gravityStrength) }

/-- CraftController.reset: restore the construction values of every field
it touches (mass and gravityReduction are not written by reset). -/
def reset (s : CraftState) : CraftState :=
  { s with
    position := ⟨0, 1000, 0⟩
    velocity := ⟨0, 0, 0⟩
    acceleration := ⟨0, 0, 0⟩
    rotation := ⟨0, 0, 0⟩
    angularVelocity := ⟨0, 0, 0⟩
    speed := 0
    altitude := 1000
    gForce := 1 }

/-- One CraftController operation that can touch the craft state. -/
inductive Op
  | update (deltaTime : ℝ) (inputState : InputState)
  | reset

/-- Apply one CraftController operation. -/
def step : Op → CraftState → CraftState
  | .update dt inp, s => updatePhysics dt inp s
  | .reset, s => reset s

/-- Run a sequence of CraftController operations from the constructor state;
the results are exactly the reachable craft states. -/
def run (ops : List Op) : CraftState :=
  ops.foldl (fun s op => step op s) initialState

end CraftController

namespace CraftHeap

/-!
Reference-level model of the CraftController state, needed for the
snapshot claims.  In the source, `this.state` holds five nested objects
(three Vector3, one Euler, one Vector3) that are only ever mutated in
place (`set`, `add`, `multiplyScalar`, `copy`, componentwise assignment)
and never reallocated, so the run of one controller involves exactly five
object identities.  A store maps each identity to its current components
(the Euler is stored by its three angle components).  `getState` returns
`{ ...this.state }`: a shallow copy, so a snapshot carries its own scalar
fields but the same five object references.
-/

/-- The identity of one of the five nested objects. -/
abbrev Ref := Fin 5

/-- The object store: current components of each nested object. -/
def Store := Ref → Vec3

/-- The craft state record as it lives on the heap: five references plus
the five scalar fields. A shallow copy of it (the getState snapshot) has
the same type and the same reference fields. -/
structure StateRec where
  posRef : Ref
  velRef : Ref
  accRef : Ref
  rotRef : Ref
  angRef : Ref
  mass : ℝ
  gravityReduction : ℝ
  speed : ℝ
  altitude : ℝ
  gForce : ℝ

/-- The record built by the constructor: five fresh distinct objects. -/
def initialRec : StateRec :=
  { posRef := 0, velRef := 1, accRef := 2, rotRef := 3, angRef := 4
    mass := 1000, gravityReduction := 0.892, speed := 0, altitude := 1000, gForce := 1 }

/-- The store at construction: position (0,1000,0), everything else zero. -/
def initialStore : Store :=
  fun i => if i = 0 then ⟨0, 1000, 0⟩ else ⟨0, 0, 0⟩

/-- Read the record, dereferencing the five nested objects. -/
def readState (r : StateRec) (σ : Store) : CraftState :=
  { position := σ r.posRef
    velocity := σ r.velRef
    acceleration := σ r.accRef
    rotation := ⟨(σ r.rotRef).x, (σ r.rotRef).y, (σ r.rotRef).z⟩
    angularVelocity := σ r.angRef
    mass := r.mass
    gravityReduction := r.gravityReduction
    speed := r.speed
    altitude := r.altitude
    gForce := r.gForce }

/-- Write a craft state back: the scalar fields land in the record, the
vector fields are written in place through the existing references. -/
def writeState (r : StateRec) (σ : Store) (s : CraftState) : StateRec × Store :=
  ({ r with mass := s.mass, gravityReduction := s.gravityReduction
            speed := s.speed, altitude := s.altitude, gForce := s.gForce },
   fun i =>
     if i = r.posRef then s.position
     else if i = r.velRef then s.velocity
     else if i = r.accRef then s.acceleration
     else if i = r.rotRef then ⟨s.rotation.x, s.rotation.y, s.rotation.z⟩
     else if i = r.angRef then s.angularVelocity
     else σ i)

/-- updatePhysics at the heap level: read, integrate, write in place. -/
def updateH (deltaTime : ℝ) (inputState : InputState) (p : StateRec × Store) :
    StateRec × Store :=
  writeState p.1 p.2 (CraftController.updatePhysics deltaTime inputState (readState p.1 p.2))

/-- reset at the heap level: read, reset, write in place. -/
def resetH (p : StateRec × Store) : StateRec × Store :=
  writeState p.1 p.2 (CraftController.reset (readState p.1 p.2))

/-- CraftController.getState: the shallow copy spread of the state record.
Every field, the five references included, is copied into a new record. -/
def getState (r : StateRec) : StateRec :=
  { posRef := r.posRef, velRef := r.velRef, accRef := r.accRef
    rotRef := r.rotRef, angRef := r.angRef
    mass := r.mass, gravityReduction := r.gravityReduction
    speed := r.speed, altitude := r.altitude, gForce := r.gForce }

end CraftHeap

/-- The nested systems record of GameState.ts. -/
structure SystemsFlags where
  propulsion : Bool
  cloaking : Bool
  sensors : Bool

/-- The game mode enumeration of GameState.ts. -/
inductive GameMode
  | menu
  | playing
  | paused
deriving DecidableEq

/-- The HUD mode enumeration of GameState.ts. -/
inductive HudMode
  | normal
  | stealth
  | tactical
deriving DecidableEq

/-- The nested hud record of GameState.ts. -/
structure HudState where
  visible : Bool
  mode : HudMode

/-- GameState interface from GameState.ts: the session state republished
to the presentation layer. -/
structure GameState where
  gameMode : GameMode
  currentMission : Option String
  position : Vec3
  velocity : Vec3
  altitude : ℝ
  speed : ℝ
  gForce : ℝ
  systems : SystemsFlags
  hud : HudState

/-- initialGameState from GameState.ts. -/
def initialGameState : GameState :=
  { gameMode := GameMode.menu
    currentMission := none
    position := ⟨0, 1000, 0⟩
    velocity := ⟨0, 0, 0⟩
    altitude := 1000
    speed := 0
    gForce := 1
    systems := { propulsion := true, cloaking := false, sensors := true }
    hud := { visible := true, mode := HudMode.normal } }

namespace GameEngine

/-- Success or failure of each subsystem initialization awaited by the
Promise.all inside GameEngine.initialize (true means the promise resolves). -/
structure InitOutcomes where
  craft : Bool
  propulsion : Bool
  cloaking : Bool
  sensors : Bool
  environment : Bool
  audio : Bool

/-- Promise.all(...) resolves exactly when every member resolves. -/
def allOk (o : InitOutcomes) : Bool :=
  o.craft && o.propulsion && o.cloaking && o.sensors && o.environment && o.audio

/-- The lifecycle-relevant fields of GameEngine together with the states it
owns.  isInit models isInitialized, animRunning models animationId being
set, errorLogged models the console.error in the initialize catch block,
and ticks counts the executed update() calls (observation of the model,
not a source field). -/
structure EngineState where
  isInit : Bool
  isPaused : Bool
  animRunning : Bool
  errorLogged : Bool
  ticks : ℕ
  craft : CraftState
  input : InputManager.State
  systems : SystemsFlags
  missionLoaded : Option String

/-- The engine plus the GameState record its updateGameState callback
writes into. -/
structure SimState where
  engine : EngineState
  gs : GameState

/-- The engine as built by the GameEngine constructor (before initialize),
paired with the initial GameState of the host application.  The propulsion
and sensor systems construct active, the cloaking system inactive. -/
def sim0 (gyro : Bool) : SimState :=
  { engine :=
    { isInit := false, isPaused := false, animRunning := false, errorLogged := false
      ticks := 0, craft := CraftController.initialState
      input := InputManager.initial gyro
      systems := { propulsion := true, cloaking := false, sensors := true }
      missionLoaded := none }
    gs := initialGameState }

/-- The updateGameState call at the end of GameEngine.update: overwrite the
kinematic fields and the systems record, leaving mode and mission alone. -/
def publish (e : EngineState) (gs : GameState) : GameState :=
  { gs with
    position := e.craft.position
    velocity := e.craft.velocity
    altitude := e.craft.altitude
    speed := e.craft.speed
    gForce := e.craft.gForce
    systems := e.systems }

/-- GameEngine.update: one tick.  The input manager recomputes its fused
state, the craft integrates one step with it, and a snapshot is published. -/
def update (deltaTime : ℝ) (p : SimState) : SimState :=
  let input := InputManager.update p.engine.input
  let craft := CraftController.updatePhysics deltaTime (InputManager.getState input) p.engine.craft
  let engine := { p.engine with input := input, craft := craft, ticks := p.engine.ticks + 1 }
  { engine := engine, gs := publish engine p.gs }

/-- GameEngine.start: a no-op when a frame is already scheduled; otherwise
the animate closure runs at once: it returns when paused, else it schedules
the next frame and executes one tick. -/
def start (deltaTime : ℝ) (p : SimState) : SimState :=
  if p.engine.animRunning then p
  else if p.engine.isPaused then p
  else update deltaTime { p with engine := { p.engine with animRunning := true } }

/-- A scheduled frame callback firing: nothing happens when no frame is
scheduled; a paused engine drops out of the loop without rescheduling;
otherwise the loop reschedules and executes one tick. -/
def frame (deltaTime : ℝ) (p : SimState) : SimState :=
  if p.engine.animRunning = false then p
  else if p.engine.isPaused then { p with engine := { p.engine with animRunning := false } }
  else update deltaTime p

/-- GameEngine.initialize: a no-op when already initialized; when every
awaited subsystem initialization resolves, mark initialized and start the
loop; when any rejects, the catch block logs the error and nothing else
happens (the loop is not started). -/
def initStep (o : InitOutcomes) (deltaTime : ℝ) (p : SimState) : SimState :=
  if p.engine.isInit then p
  else if allOk o then start deltaTime { p with engine := { p.engine with isInit := true } }
  else { p with engine := { p.engine with errorLogged := true } }

/-- GameEngine.pause: raise the pause flag and cancel the scheduled frame. -/
def pause (p : SimState) : SimState :=
  { p with engine := { p.engine with isPaused := true, animRunning := false } }

/-- GameEngine.resume: clear the pause flag and call start. -/
def resume (deltaTime : ℝ) (p : SimState) : SimState :=
  start deltaTime { p with engine := { p.engine with isPaused := false } }

/-- GameEngine.dispose: pause, then release rendering and audio resources
(resource release has no further effect on the modelled state; the source
keeps no disposed flag). -/
def dispose (p : SimState) : SimState := pause p

/-- GameEngine.startMission: load the mission into the environment, reset
the craft, clear the pause flag, and call start. -/
def startMission (mission : String) (deltaTime : ℝ) (p : SimState) : SimState :=
  start deltaTime
    { p with engine := { p.engine with
        missionLoaded := some mission
        craft := CraftController.reset p.engine.craft
        isPaused := false } }

/-- One externally triggered engine operation. -/
inductive Op
  | init (o : InitOutcomes) (deltaTime : ℝ)
  | frame (deltaTime : ℝ)
  | pause
  | resume (deltaTime : ℝ)
  | dispose
  | selectMission (mission : String) (deltaTime : ℝ)
  | raw (e : InputManager.RawEvent)

/-- Apply one engine operation.  A raw host input event lands in the input
manager without running a tick. -/
def stepOp : Op → SimState → SimState
  | .init o dt, p => initStep o dt p
  | .frame dt, p => frame dt p
  | .pause, p => pause p
  | .resume dt, p => resume dt p
  | .dispose, p => dispose p
  | .selectMission m dt, p => startMission m dt p
  | .raw e, p => { p with engine := { p.engine with
      input := InputManager.step (InputManager.Op.raw e) p.engine.input } }

/-- Run a sequence of engine operations from a given state. -/
def runFrom (p : SimState) (ops : List Op) : SimState :=
  ops.foldl (fun q op => stepOp op q) p

/-- Does the operation re-arm the loop (the two paths that call start with
the pause flag cleared)? -/
def isRestart : Op → Bool
  | .resume _ => true
  | .selectMission _ _ => true
  | _ => false

end GameEngine

/-- The onMissionSelect handler of App.tsx: merge mode playing and the
selected mission id into the GameState, then call GameEngine.startMission. -/
def onMissionSelect (mission : String) (deltaTime : ℝ) (p : GameEngine.SimState) :
    GameEngine.SimState :=
  GameEngine.startMission mission deltaTime
    { p with gs := { p.gs with gameMode := GameMode.playing, currentMission := some mission } }

/-!  Helper lemmas about the flight dynamics. -/

namespace CraftController

theorem step_mass (op : Op) (s : CraftState) : (step op s).mass = s.mass := by
  cases op <;> rfl

theorem step_gravityReduction (op : Op) (s : CraftState) :
    (step op s).gravityReduction = s.gravityReduction := by
  cases op <;> rfl

theorem foldl_mass : ∀ (ops : List Op) (s : CraftState),
    (ops.foldl (fun t op => step op t) s).mass = s.mass
  | [], _ => rfl
  | op :: ops, s => by
      rw [List.foldl_cons, foldl_mass ops (step op s), step_mass]

theorem foldl_gravityReduction : ∀ (ops : List Op) (s : CraftState),
    (ops.foldl (fun t op => step op t) s).gravityReduction = s.gravityReduction
  | [], _ => rfl
  | op :: ops, s => by
      rw [List.foldl_cons, foldl_gravityReduction ops (step op s), step_gravityReduction]

theorem run_mass (ops : List Op) : (run ops).mass = 1000 :=
  (foldl_mass ops initialState).trans rfl

theorem run_gravityReduction (ops : List Op) : (run ops).gravityReduction = 0.892 :=
  (foldl_gravityReduction ops initialState).trans rfl

theorem reset_eq_initial {s : CraftState} (h1 : s.mass = 1000)
    (h2 : s.gravityReduction = 0.892) : reset s = initialState := by
  unfold reset initialState
  ext <;> simp [h1, h2]

theorem length_limitSpeed (v : Vec3) : (limitSpeed v).length ≤ maxSpeed := by
  unfold limitSpeed
  split_ifs with h
  · have hpos : (0 : ℝ) < v.length :=
      lt_trans (by norm_num [maxSpeed]) h
    have hne : v.length ≠ 0 := ne_of_gt hpos
    rw [Vec3.normalize, Vec3.divideScalar, if_neg hne, Vec3.length_multiplyScalar,
      Vec3.length_multiplyScalar, abs_of_nonneg (by norm_num [maxSpeed] : (0:ℝ) ≤ maxSpeed),
      abs_of_nonneg (le_of_lt (one_div_pos.mpr hpos)), one_div, inv_mul_cancel₀ hne, mul_one]
  · exact le_of_not_lt h

theorem updatePhysics_velocity_limited (dt : ℝ) (inp : InputState) (s : CraftState) :
    ∃ v : Vec3, (updatePhysics dt inp s).velocity = limitSpeed v :=
  ⟨_, rfl⟩

theorem updatePhysics_velocity_le (dt : ℝ) (inp : InputState) (s : CraftState) :
    (updatePhysics dt inp s).velocity.length ≤ maxSpeed := by
  obtain ⟨v, hv⟩ := updatePhysics_velocity_limited dt inp s
  rw [hv]
  exact length_limitSpeed v

theorem foldl_velocity_le : ∀ (calls : List (ℝ × InputState)) (s : CraftState),
    s.velocity.length ≤ maxSpeed →
    ((calls.foldl (fun t c => updatePhysics c.1 c.2 t) s).velocity.length ≤ maxSpeed)
  | [], _, hs => hs
  | c :: cs, s, _ => by
      rw [List.foldl_cons]
      exact foldl_velocity_le cs _ (updatePhysics_velocity_le c.1 c.2 s)

theorem initial_velocity_length : initialState.velocity.length = 0 := by
  simp [initialState, Vec3.length]

end CraftController

/-- Claim C8: after every FlightDynamics update the derived gForce equals
the maximum of 1 and the acceleration magnitude divided by the gravity
constant 9.81, hence is at least 1. -/
theorem c8_gforce_invariant (dt : ℝ) (inp : InputState) (s : CraftState) :
    1 ≤ (CraftController.updatePhysics dt inp s).gForce ∧
    (CraftController.updatePhysics dt inp s).gForce =
      max 1 ((CraftController.updatePhysics dt inp s).acceleration.length /
        CraftController.gravityStrength) := by
  have h : (CraftController.updatePhysics dt inp s).gForce =
      max 1 ((CraftController.updatePhysics dt inp s).acceleration.length /
        CraftController.gravityStrength) := rfl
  exact ⟨h ▸ le_max_left _ _, h⟩

/-- Claim C9: reset restores exactly the fixed initial CraftState from any
reachable craft state, and a second consecutive reset changes nothing. -/
theorem c9_reset_restores_initial (ops : List CraftController.Op) :
    CraftController.reset (CraftController.run ops) = CraftController.initialState ∧
    CraftController.reset (CraftController.reset (CraftController.run ops)) =
      CraftController.reset (CraftController.run ops) := by
  refine ⟨CraftController.reset_eq_initial (CraftController.run_mass ops)
    (CraftController.run_gravityReduction ops), rfl⟩

/-- Claim C10: no CraftController operation sequence ever changes the mass
field (1000) or the gravityReduction field (0.892). -/
theorem c10_mass_gravity_frame (ops : List CraftController.Op) :
    (CraftController.run ops).mass = 1000 ∧
    (CraftController.run ops).gravityReduction = 0.892 :=
  ⟨CraftController.run_mass ops, CraftController.run_gravityReduction ops⟩

/-- Claim C2: along every finite sequence of update calls with nonnegative
time steps from the initial craft state, the speed never exceeds 2000 after
any call (the run over every prefix is itself a run, so the bound after
every call follows from the bound at the end of an arbitrary sequence). -/
theorem c2_speed_clamped (calls : List (ℝ × InputState))
    (h : ∀ c ∈ calls, 0 ≤ c.1) :
    ((calls.foldl (fun t c => CraftController.updatePhysics c.1 c.2 t)
      CraftController.initialState).velocity.length ≤ CraftController.maxSpeed) := by
  refine CraftController.foldl_velocity_le calls CraftController.initialState ?_
  rw [CraftController.initial_velocity_length]
  norm_num [CraftController.maxSpeed]

/-- The control input of the C1 scenario: all thrust flags false except up,
zero pitch, yaw and roll, no touch contact. -/
def upOnlyInput : InputState :=
  { forward := false, backward := false, left := false, right := false
    up := true, down := false, pitch := 0, yaw := 0, roll := 0
    touch := { active := false, x := 0, y := 0, deltaX := 0, deltaY := 0 } }

theorem length_axisY (c : ℝ) : (Vec3.mk 0 c 0).length = |c| := by
  unfold Vec3.length
  rw [show (0 : ℝ) * 0 + c * c + 0 * 0 = c ^ 2 by ring, Real.sqrt_sq_eq_abs]

theorem limitSpeed_of_le {v : Vec3} (h : v.length ≤ CraftController.maxSpeed) :
    CraftController.limitSpeed v = v := if_neg (not_lt.mpr h)

theorem c1_velocity_eval :
    (CraftController.updatePhysics 0.1 upOnlyInput CraftController.initialState).velocity =
      Vec3.mk 0 (-0.05482904) 0 := by
  have hlim : CraftController.limitSpeed (Vec3.mk 0 (-0.05482904) 0) =
      Vec3.mk 0 (-0.05482904) 0 := by
    refine limitSpeed_of_le ?_
    rw [length_axisY, abs_of_nonpos (by norm_num)]
    norm_num [CraftController.maxSpeed]
  simp only [CraftController.updatePhysics, upOnlyInput, CraftController.initialState]
  norm_num [Vec3.add, Vec3.multiplyScalar, Vec3.divideScalar, Vec3.applyEuler_zero,
    CraftController.baseThrust, CraftController.gravityStrength, CraftController.dragFactor]
  convert hlim using 2 <;> norm_num

theorem updatePhysics_altitude (dt : ℝ) (inp : InputState) (s : CraftState) :
    (CraftController.updatePhysics dt inp s).altitude =
      (s.position.add ((CraftController.updatePhysics dt inp s).velocity.multiplyScalar dt)).y :=
  rfl

theorem c1_altitude_eval :
    (CraftController.updatePhysics 0.1 upOnlyInput CraftController.initialState).altitude =
      999.994517096 := by
  rw [updatePhysics_altitude, c1_velocity_eval]
  norm_num [Vec3.add, Vec3.multiplyScalar, CraftController.initialState]

/-- Claim C1 counterexample: in the atmospheric-mission scenario (craft at
the fixed initial CraftState) a single update with time step 0.1 and only
the up thrust flag held does NOT yield velocity.y > 0 and altitude > 1000:
the up thrust accelerates by 500/1000 = 0.5 while the residual gravity is
9.81 times 0.108, about 1.059, so the craft sinks. -/
theorem c1_scenario_counterexample :
    ¬ (0 < (CraftController.updatePhysics 0.1 upOnlyInput
          CraftController.initialState).velocity.y ∧
       1000 < (CraftController.updatePhysics 0.1 upOnlyInput
          CraftController.initialState).altitude) := by
  rw [c1_velocity_eval, c1_altitude_eval]
  norm_num

/-- Claim C1 amended: in the same scenario the tick yields velocity.y < 0
and altitude < 1000, because the net upward thrust (0.5) does not overcome
the residual gravity (about 1.059). -/
theorem c1_scenario_amended :
    (CraftController.updatePhysics 0.1 upOnlyInput
      CraftController.initialState).velocity.y < 0 ∧
    (CraftController.updatePhysics 0.1 upOnlyInput
      CraftController.initialState).altitude < 1000 := by
  rw [c1_velocity_eval, c1_altitude_eval]
  norm_num

/-- Witness for C2 at the concrete one-call sequence of the C1 scenario. -/
theorem c2_speed_clamped_witness :
    (∀ c ∈ [((0.1 : ℝ), upOnlyInput)], 0 ≤ c.1) ∧
    (([((0.1 : ℝ), upOnlyInput)].foldl
      (fun t c => CraftController.updatePhysics c.1 c.2 t)
      CraftController.initialState).velocity.length ≤ CraftController.maxSpeed) :=
  ⟨by norm_num, c2_speed_clamped [((0.1 : ℝ), upOnlyInput)] (by norm_num)⟩

namespace InputManager

/-- The three fused axes lie in the interval from -1 to 1. -/
def axesOk (st : InputState) : Prop :=
  -1 ≤ st.pitch ∧ st.pitch ≤ 1 ∧ -1 ≤ st.yaw ∧ st.yaw ≤ 1 ∧ -1 ≤ st.roll ∧ st.roll ≤ 1

theorem clamp_lower (x : ℝ) : -1 ≤ max (-1) (min 1 x) := le_max_left _ _

theorem clamp_upper (x : ℝ) : max (-1) (min 1 x) ≤ 1 :=
  max_le (by norm_num) (min_le_left 1 x)

theorem update_pitch (m : State) : ∃ a, (update m).inputState.pitch = max (-1) (min 1 a) :=
  ⟨_, rfl⟩

theorem update_yaw (m : State) : ∃ a, (update m).inputState.yaw = max (-1) (min 1 a) :=
  ⟨_, rfl⟩

theorem update_roll (m : State) : ∃ a, (update m).inputState.roll = max (-1) (min 1 a) :=
  ⟨_, rfl⟩

theorem update_axesOk (m : State) : axesOk (update m).inputState := by
  obtain ⟨a, ha⟩ := update_pitch m
  obtain ⟨b, hb⟩ := update_yaw m
  obtain ⟨c, hc⟩ := update_roll m
  exact ⟨ha ▸ clamp_lower a, ha ▸ clamp_upper a, hb ▸ clamp_lower b,
    hb ▸ clamp_upper b, hc ▸ clamp_lower c, hc ▸ clamp_upper c⟩

theorem raw_axes (e : RawEvent) (m : State) :
    (step (Op.raw e) m).inputState.pitch = m.inputState.pitch ∧
    (step (Op.raw e) m).inputState.yaw = m.inputState.yaw ∧
    (step (Op.raw e) m).inputState.roll = m.inputState.roll := by
  cases e <;>
    simp only [step, handleKeyDown, handleKeyUp, handleTouchStart, handleTouchMove,
      handleTouchEnd, handleMouseDown, handleMouseMove, handleMouseUp, handleOrientation] <;>
    (try split_ifs) <;> simp

theorem step_axesOk (op : Op) (m : State) (h : axesOk m.inputState) :
    axesOk (step op m).inputState := by
  cases op with
  | raw e =>
      obtain ⟨h1, h2, h3⟩ := raw_axes e m
      exact ⟨h1 ▸ h.1, h1 ▸ h.2.1, h2 ▸ h.2.2.1, h2 ▸ h.2.2.2.1,
        h3 ▸ h.2.2.2.2.1, h3 ▸ h.2.2.2.2.2⟩
  | update => exact update_axesOk m

theorem foldl_axesOk : ∀ (ops : List Op) (m : State), axesOk m.inputState →
    axesOk ((ops.foldl (fun t op => step op t) m).inputState)
  | [], _, h => h
  | op :: ops, m, h => by
      rw [List.foldl_cons]
      exact foldl_axesOk ops _ (step_axesOk op m h)

theorem initial_axesOk (gyro : Bool) : axesOk (initial gyro).inputState := by
  constructor <;> norm_num [initial, initialInputState, axesOk]

end InputManager

/-- Claim C7: along every sequence of raw input events interleaved with
update calls, the pitch, yaw and roll of the state returned by
InputManager.getState lie within the interval from -1 to 1. -/
theorem c7_axes_clamped (gyro : Bool) (ops : List InputManager.Op) :
    -1 ≤ (InputManager.getState (InputManager.run gyro ops)).pitch ∧
    (InputManager.getState (InputManager.run gyro ops)).pitch ≤ 1 ∧
    -1 ≤ (InputManager.getState (InputManager.run gyro ops)).yaw ∧
    (InputManager.getState (InputManager.run gyro ops)).yaw ≤ 1 ∧
    -1 ≤ (InputManager.getState (InputManager.run gyro ops)).roll ∧
    (InputManager.getState (InputManager.run gyro ops)).roll ≤ 1 :=
  InputManager.foldl_axesOk ops (InputManager.initial gyro)
    (InputManager.initial_axesOk gyro)

namespace CraftHeap

theorem readState_initial : readState initialRec initialStore = CraftController.initialState := by
  ext <;> simp [readState, initialRec, initialStore, CraftController.initialState]

end CraftHeap

namespace InputHeap

/-!
Reference-level model of the InputState record owned by InputManager, the
counterpart of the CraftHeap model.  In the source, `this.inputState`
holds exactly one nested object, the touch record; the touch and mouse
handlers mutate it in place (componentwise assignment) and never
reallocate it, and `getState` returns `{ ...this.inputState }`: a shallow
copy that carries its own scalar fields but the same touch reference.
-/

/-- The identity of the single nested touch object. -/
abbrev Ref := Fin 1

/-- The object store: current components of the touch record. -/
def Store := Ref → TouchState

/-- The input state record as it lives on the heap: the scalar fields plus
the reference to the nested touch object. -/
structure StateRec where
  forward : Bool
  backward : Bool
  left : Bool
  right : Bool
  up : Bool
  down : Bool
  pitch : ℝ
  yaw : ℝ
  roll : ℝ
  touchRef : Ref

/-- The record built by the InputManager constructor. -/
def initialRec : StateRec :=
  { forward := false, backward := false, left := false, right := false
    up := false, down := false, pitch := 0, yaw := 0, roll := 0, touchRef := 0 }

/-- The store at construction: an inactive touch record at the origin. -/
def initialStore : Store :=
  fun _ => { active := false, x := 0, y := 0, deltaX := 0, deltaY := 0 }

/-- Read the record, dereferencing the touch object. -/
def readState (r : StateRec) (σ : Store) : InputState :=
  { forward := r.forward, backward := r.backward, left := r.left, right := r.right
    up := r.up, down := r.down, pitch := r.pitch, yaw := r.yaw, roll := r.roll
    touch := σ r.touchRef }

/-- handleTouchStart at the heap level: the handler writes active, x and y
in place through the internal touch reference; the input state record
itself is untouched (the last-touch scalars it also writes live on the
manager, outside InputState). -/
def handleTouchStartH (cx cy : ℝ) (p : StateRec × Store) : StateRec × Store :=
  (p.1, fun i =>
    if i = p.1.touchRef then
      { p.2 p.1.touchRef with active := true, x := cx, y := cy }
    else p.2 i)

/-- InputManager.getState: the shallow copy spread of the inputState
record.  Every field, the touch reference included, is copied into a new
record. -/
def getState (r : StateRec) : StateRec :=
  { forward := r.forward, backward := r.backward, left := r.left, right := r.right
    up := r.up, down := r.down, pitch := r.pitch, yaw := r.yaw, roll := r.roll
    touchRef := r.touchRef }

end InputHeap

/-- Claim C3 counterexample: the snapshot handed out by getState before a
tick does not survive the tick unchanged: the velocity object reachable
through the snapshot holds the freshly integrated velocity afterwards,
because getState is a shallow copy and updatePhysics mutates the nested
vectors in place. -/
theorem c3_snapshot_counterexample :
    ¬ ((CraftHeap.updateH 0.1 upOnlyInput (CraftHeap.initialRec, CraftHeap.initialStore)).2
        (CraftHeap.getState CraftHeap.initialRec).velRef =
       CraftHeap.initialStore (CraftHeap.getState CraftHeap.initialRec).velRef) := by
  intro hEq
  have h1 : (CraftHeap.updateH 0.1 upOnlyInput (CraftHeap.initialRec, CraftHeap.initialStore)).2
      (CraftHeap.getState CraftHeap.initialRec).velRef =
      (CraftController.updatePhysics 0.1 upOnlyInput CraftController.initialState).velocity := by
    rw [show CraftController.initialState = CraftHeap.readState CraftHeap.initialRec
      CraftHeap.initialStore from CraftHeap.readState_initial.symm]
    simp [CraftHeap.updateH, CraftHeap.writeState, CraftHeap.getState, CraftHeap.initialRec]
  have h2 : CraftHeap.initialStore (CraftHeap.getState CraftHeap.initialRec).velRef =
      Vec3.mk 0 0 0 := by
    simp [CraftHeap.initialStore, CraftHeap.getState, CraftHeap.initialRec]
  rw [h1, h2, c1_velocity_eval] at hEq
  have := congrArg Vec3.y hEq
  norm_num at this

/-- Claim C3 amended: both accessors return shallow copies.  The scalar
fields of a snapshot are genuine copies (they keep the values they had
when the snapshot was taken), but the nested objects are the internal
ones.  For CraftController: after a later update the store, read through
the snapshot reference, shows the freshly integrated velocity, and the
snapshot reference still is the internal reference.  For InputManager: the
snapshot axis scalars are copies, but after a later touchstart the store,
read through the snapshot touch reference, shows the handler write, and
the snapshot touch reference still is the internal reference. -/
theorem c3_shallow_copy_semantics (dt : ℝ) (inp : InputState)
    (r : CraftHeap.StateRec) (σ : CraftHeap.Store) (cx cy : ℝ)
    (r2 : InputHeap.StateRec) (σ2 : InputHeap.Store)
    (h0 : r.posRef = 0) (h1 : r.velRef = 1) (h2 : r.accRef = 2)
    (h3 : r.rotRef = 3) (h4 : r.angRef = 4) :
    (CraftHeap.getState r).speed = r.speed ∧
    (CraftHeap.getState r).altitude = r.altitude ∧
    (CraftHeap.getState r).gForce = r.gForce ∧
    ((CraftHeap.updateH dt inp (r, σ)).2 (CraftHeap.getState r).velRef =
      (CraftController.updatePhysics dt inp (CraftHeap.readState r σ)).velocity) ∧
    (CraftHeap.getState r).velRef = (CraftHeap.updateH dt inp (r, σ)).1.velRef ∧
    (InputHeap.getState r2).pitch = r2.pitch ∧
    (InputHeap.getState r2).yaw = r2.yaw ∧
    (InputHeap.getState r2).roll = r2.roll ∧
    ((InputHeap.handleTouchStartH cx cy (r2, σ2)).2 (InputHeap.getState r2).touchRef =
      { σ2 r2.touchRef with active := true, x := cx, y := cy }) ∧
    (InputHeap.getState r2).touchRef =
      (InputHeap.handleTouchStartH cx cy (r2, σ2)).1.touchRef := by
  refine ⟨rfl, rfl, rfl, ?_, rfl, rfl, rfl, rfl, ?_, rfl⟩
  · simp [CraftHeap.updateH, CraftHeap.writeState, CraftHeap.getState, h0, h1]
  · simp [InputHeap.handleTouchStartH, InputHeap.getState]

/-- Witness for the amended C3 at the constructor states, the C1 tick and
a touchstart at (3, 4). -/
theorem c3_shallow_copy_semantics_witness :
    (CraftHeap.initialRec.posRef = 0 ∧ CraftHeap.initialRec.velRef = 1 ∧
     CraftHeap.initialRec.accRef = 2 ∧ CraftHeap.initialRec.rotRef = 3 ∧
     CraftHeap.initialRec.angRef = 4) ∧
    ((CraftHeap.getState CraftHeap.initialRec).speed = CraftHeap.initialRec.speed ∧
     (CraftHeap.getState CraftHeap.initialRec).altitude = CraftHeap.initialRec.altitude ∧
     (CraftHeap.getState CraftHeap.initialRec).gForce = CraftHeap.initialRec.gForce ∧
     ((CraftHeap.updateH 0.1 upOnlyInput (CraftHeap.initialRec, CraftHeap.initialStore)).2
        (CraftHeap.getState CraftHeap.initialRec).velRef =
       (CraftController.updatePhysics 0.1 upOnlyInput
         (CraftHeap.readState CraftHeap.initialRec CraftHeap.initialStore)).velocity) ∧
     (CraftHeap.getState CraftHeap.initialRec).velRef =
       (CraftHeap.updateH 0.1 upOnlyInput
         (CraftHeap.initialRec, CraftHeap.initialStore)).1.velRef ∧
     (InputHeap.getState InputHeap.initialRec).pitch = InputHeap.initialRec.pitch ∧
     (InputHeap.getState InputHeap.initialRec).yaw = InputHeap.initialRec.yaw ∧
     (InputHeap.getState InputHeap.initialRec).roll = InputHeap.initialRec.roll ∧
     ((InputHeap.handleTouchStartH 3 4 (InputHeap.initialRec, InputHeap.initialStore)).2
        (InputHeap.getState InputHeap.initialRec).touchRef =
       { InputHeap.initialStore InputHeap.initialRec.touchRef with
           active := true, x := 3, y := 4 }) ∧
     (InputHeap.getState InputHeap.initialRec).touchRef =
       (InputHeap.handleTouchStartH 3 4
         (InputHeap.initialRec, InputHeap.initialStore)).1.touchRef) :=
  ⟨⟨rfl, rfl, rfl, rfl, rfl⟩,
   c3_shallow_copy_semantics 0.1 upOnlyInput CraftHeap.initialRec CraftHeap.initialStore
     3 4 InputHeap.initialRec InputHeap.initialStore rfl rfl rfl rfl rfl⟩

namespace AudioSystem

/-- AudioSystem.initialize wraps its whole body in try/catch and only
warns on failure, so the promise the engine awaits for the audio module
always resolves: its outcome is the constant true.  An internal audio
failure is therefore invisible to the orchestration boundary: Promise.all
still resolves and the loop still starts. -/
def initResolves : Bool := true

end AudioSystem

/-- Every awaited subsystem initialization resolves. -/
def allOkOutcomes : GameEngine.InitOutcomes :=
  { craft := true, propulsion := true, cloaking := true, sensors := true
    environment := true, audio := AudioSystem.initResolves }

/-- Only the environment module initialization rejects.  Environment (like
propulsion, cloaking and sensors) has no internal catch in initialize, so
an error thrown there rejects the awaited promise; the audio outcome is
pinned to the always-resolving behavior of AudioSystem.initialize. -/
def environmentFailOutcomes : GameEngine.InitOutcomes :=
  { craft := true, propulsion := true, cloaking := true, sensors := true
    environment := false, audio := AudioSystem.initResolves }

/-- Claim C4 counterexample: when the environment module initialization
rejects, the orchestration boundary catches and logs the failure, but the
loop does NOT begin operating: no frame is scheduled (and the engine stays
uninitialized). -/
theorem c4_init_counterexample :
    (GameEngine.initStep environmentFailOutcomes 0.1
      (GameEngine.sim0 false)).engine.errorLogged = true ∧
    ¬ ((GameEngine.initStep environmentFailOutcomes 0.1
        (GameEngine.sim0 false)).engine.animRunning = true) := by
  constructor
  · rfl
  · intro hRun
    simp [GameEngine.initStep, GameEngine.sim0, GameEngine.allOk, environmentFailOutcomes,
      AudioSystem.initResolves] at hRun

/-- Claim C4 amended: a rejected subsystem initialization (possible for
the modules without an internal catch; the audio module always resolves)
is caught at the orchestration boundary and logged, but it aborts
initialization: the engine stays uninitialized, no frame gets scheduled,
and no tick runs. -/
theorem c4_init_failure_aborts (o : GameEngine.InitOutcomes) (dt : ℝ)
    (p : GameEngine.SimState) (h1 : p.engine.isInit = false)
    (h2 : GameEngine.allOk o = false) :
    (GameEngine.initStep o dt p).engine.errorLogged = true ∧
    (GameEngine.initStep o dt p).engine.isInit = false ∧
    (GameEngine.initStep o dt p).engine.animRunning = p.engine.animRunning ∧
    (GameEngine.initStep o dt p).engine.ticks = p.engine.ticks := by
  simp [GameEngine.initStep, h1, h2]

/-- Witness for the amended C4 with the environment failure at the fresh
engine. -/
theorem c4_init_failure_aborts_witness :
    ((GameEngine.sim0 false).engine.isInit = false ∧
     GameEngine.allOk environmentFailOutcomes = false) ∧
    ((GameEngine.initStep environmentFailOutcomes 0.1
        (GameEngine.sim0 false)).engine.errorLogged = true ∧
     (GameEngine.initStep environmentFailOutcomes 0.1
        (GameEngine.sim0 false)).engine.isInit = false ∧
     (GameEngine.initStep environmentFailOutcomes 0.1
        (GameEngine.sim0 false)).engine.animRunning =
       (GameEngine.sim0 false).engine.animRunning ∧
     (GameEngine.initStep environmentFailOutcomes 0.1
        (GameEngine.sim0 false)).engine.ticks =
       (GameEngine.sim0 false).engine.ticks) :=
  ⟨⟨rfl, rfl⟩,
   c4_init_failure_aborts environmentFailOutcomes 0.1 (GameEngine.sim0 false) rfl rfl⟩

/-- Claim C5 counterexample: dispose is not terminal.  From the fresh
engine, initialize (which starts the loop and runs the first tick), then
dispose, then resume: the resume re-enters start and executes a further
tick, so a FlightDynamics update runs after dispose. -/
theorem c5_dispose_counterexample :
    (GameEngine.runFrom (GameEngine.sim0 false)
      [GameEngine.Op.init allOkOutcomes 0.1, GameEngine.Op.dispose,
       GameEngine.Op.resume 0.1]).engine.ticks =
    (GameEngine.runFrom (GameEngine.sim0 false)
      [GameEngine.Op.init allOkOutcomes 0.1, GameEngine.Op.dispose]).engine.ticks + 1 := by
  simp [GameEngine.runFrom, GameEngine.stepOp, GameEngine.initStep, GameEngine.start,
    GameEngine.update, GameEngine.pause, GameEngine.resume, GameEngine.dispose,
    GameEngine.sim0, GameEngine.allOk, allOkOutcomes]

namespace GameEngine

/-- After dispose the engine is paused with no scheduled frame. -/
def Parked (p : SimState) : Prop :=
  p.engine.isPaused = true ∧ p.engine.animRunning = false

theorem stepOp_parked (op : Op) (p : SimState) (hop : isRestart op = false)
    (hp : Parked p) : Parked (stepOp op p) ∧ (stepOp op p).engine.ticks = p.engine.ticks := by
  obtain ⟨hPause, hAnim⟩ := hp
  cases op with
  | init o dt =>
      by_cases hInit : p.engine.isInit
      · simp [stepOp, initStep, hInit, Parked, hPause, hAnim]
      · by_cases hOk : allOk o
        · simp [stepOp, initStep, hInit, hOk, start, hAnim, hPause, Parked]
        · simp [stepOp, initStep, hInit, hOk, Parked, hPause, hAnim]
  | frame dt => simp [stepOp, frame, hAnim, Parked, hPause]
  | pause => simp [stepOp, pause, Parked]
  | resume dt => simp [isRestart] at hop
  | dispose => simp [stepOp, dispose, pause, Parked]
  | selectMission m dt => simp [isRestart] at hop
  | raw e => simp [stepOp, Parked, hPause, hAnim]

theorem runFrom_parked : ∀ (ops : List Op) (p : SimState),
    (∀ op ∈ ops, isRestart op = false) → Parked p →
    Parked (runFrom p ops) ∧ (runFrom p ops).engine.ticks = p.engine.ticks
  | [], _, _, hp => ⟨hp, rfl⟩
  | op :: ops, p, hops, hp => by
      have h1 := stepOp_parked op p (hops op (List.mem_cons_self op ops)) hp
      have h2 := runFrom_parked ops (stepOp op p)
        (fun o ho => hops o (List.mem_cons_of_mem op ho)) h1.1
      exact ⟨h2.1, by rw [show runFrom p (op :: ops) = runFrom (stepOp op p) ops from rfl,
        h2.2, h1.2]⟩

theorem dispose_parked (p : SimState) : Parked (dispose p) := ⟨rfl, rfl⟩

end GameEngine

/-- Claim C5 amended: dispose halts the loop — after dispose, no sequence
of operations that avoids resume and startMission ever executes another
tick — but resume or startMission after dispose re-arms the loop (see the
counterexample), so dispose is not terminal. -/
theorem c5_dispose_halts_until_restart (p : GameEngine.SimState)
    (ops : List GameEngine.Op) (h : ∀ op ∈ ops, GameEngine.isRestart op = false) :
    (GameEngine.runFrom (GameEngine.dispose p) ops).engine.ticks =
      (GameEngine.dispose p).engine.ticks :=
  (GameEngine.runFrom_parked ops (GameEngine.dispose p) h
    (GameEngine.dispose_parked p)).2

/-- Witness for the amended C5: dispose the fresh engine, then a frame
callback and a pause; no tick runs. -/
theorem c5_dispose_halts_until_restart_witness :
    (∀ op ∈ [GameEngine.Op.frame 0.1, GameEngine.Op.pause],
      GameEngine.isRestart op = false) ∧
    (GameEngine.runFrom (GameEngine.dispose (GameEngine.sim0 false))
      [GameEngine.Op.frame 0.1, GameEngine.Op.pause]).engine.ticks =
      (GameEngine.dispose (GameEngine.sim0 false)).engine.ticks :=
  ⟨by simp [GameEngine.isRestart],
   c5_dispose_halts_until_restart (GameEngine.sim0 false)
     [GameEngine.Op.frame 0.1, GameEngine.Op.pause]
     (by simp [GameEngine.isRestart])⟩

/-- Claim C6: selecting a mission records the mission id and the playing
mode in the published session state, loads the mission, and resets the
flight dynamics to the fixed initial CraftState; when the loop was not
already running the restarted loop integrates its next tick from exactly
that initial state. -/
theorem c6_start_mission (mission : String) (dt : ℝ) (p : GameEngine.SimState)
    (h1 : p.engine.craft.mass = 1000) (h2 : p.engine.craft.gravityReduction = 0.892) :
    (onMissionSelect mission dt p).gs.gameMode = GameMode.playing ∧
    (onMissionSelect mission dt p).gs.currentMission = some mission ∧
    (onMissionSelect mission dt p).engine.missionLoaded = some mission ∧
    (p.engine.animRunning = true →
      (onMissionSelect mission dt p).engine.craft = CraftController.initialState) ∧
    (p.engine.animRunning = false →
      (onMissionSelect mission dt p).engine.craft =
        CraftController.updatePhysics dt
          (InputManager.getState (InputManager.update p.engine.input))
          CraftController.initialState) := by
  have hReset : CraftController.reset p.engine.craft = CraftController.initialState :=
    CraftController.reset_eq_initial h1 h2
  by_cases hA : p.engine.animRunning
  · refine ⟨?_, ?_, ?_, fun _ => ?_, fun hF => by rw [hA] at hF; cases hF⟩ <;>
      simp [onMissionSelect, GameEngine.startMission, GameEngine.start, hA, hReset]
  · refine ⟨?_, ?_, ?_, fun hT => by rw [hT] at hA; exact absurd rfl hA, fun _ => ?_⟩ <;>
      simp [onMissionSelect, GameEngine.startMission, GameEngine.start, GameEngine.update,
        GameEngine.publish, InputManager.getState, hA, hReset]

/-- Witness for C6: select the atmospheric mission on the fresh engine. -/
theorem c6_start_mission_witness :
    ((GameEngine.sim0 false).engine.craft.mass = 1000 ∧
     (GameEngine.sim0 false).engine.craft.gravityReduction = 0.892) ∧
    ((onMissionSelect ("atmospheric") 0.1 (GameEngine.sim0 false)).gs.gameMode =
       GameMode.playing ∧
     (onMissionSelect ("atmospheric") 0.1 (GameEngine.sim0 false)).gs.currentMission =
       some ("atmospheric") ∧
     (onMissionSelect ("atmospheric") 0.1 (GameEngine.sim0 false)).engine.missionLoaded =
       some ("atmospheric") ∧
     ((GameEngine.sim0 false).engine.animRunning = true →
       (onMissionSelect ("atmospheric") 0.1 (GameEngine.sim0 false)).engine.craft =
         CraftController.initialState) ∧
     ((GameEngine.sim0 false).engine.animRunning = false →
       (onMissionSelect ("atmospheric") 0.1 (GameEngine.sim0 false)).engine.craft =
         CraftController.updatePhysics 0.1
           (InputManager.getState (InputManager.update (GameEngine.sim0 false).engine.input))
           CraftController.initialState)) :=
  ⟨⟨rfl, rfl⟩, c6_start_mission ("atmospheric") 0.1 (GameEngine.sim0 false) rfl rfl⟩
